import Mathlib

/-!
Verification of the MultiTTSApp engine-adapter layer.

This file gives a shallow embedding of the four TTS engine adapters
(`src/tts_engines/xtts_engine.py`, `piper_engine.py`, `bark_engine.py`,
`elevenlabs_engine.py`) and proves properties of the embedded code.

Modelling conventions:
* Python dicts with string keys are association lists (`List (String × α)`);
  `dictInsert` mirrors `d[k] = v` (replace in place, or append when the key is
  new) and `dictErase` mirrors `del d[k]`.
* Backend SDK calls (model constructors, inference calls, file writes) are
  oracles supplied in an environment record: each call site reads its outcome
  (`Except`-valued, an `error` meaning the call raised) from the environment.
* Module-level mutable globals (the model caches) are explicit state records
  threaded through the functions; an operation returns its new state together
  with its result, and also a trace of the loader invocations it performed, so
  that "the loader was (not) invoked" is expressible.
* `None`-returning code paths are `Option`-valued results.
-/

/-! ### Association-list model of Python string-keyed dicts -/

def dictGet {α : Type} (l : List (String × α)) (k : String) : Option α :=
  match l with
  | [] => none
  | p :: ps => if p.1 = k then some p.2 else dictGet ps k

def dictInsert {α : Type} (l : List (String × α)) (k : String) (v : α) :
    List (String × α) :=
  match l with
  | [] => [(k, v)]
  | p :: ps => if p.1 = k then (k, v) :: ps else p :: dictInsert ps k v

def dictErase {α : Type} (l : List (String × α)) (k : String) :
    List (String × α) :=
  l.filter (fun p => p.1 ≠ k)

def dictKeys {α : Type} (l : List (String × α)) : List String :=
  l.map Prod.fst

/-! ### Small string helpers mirroring Python primitives -/

/-- Python `str.strip()` (whitespace from both ends). -/
def pyStrip (s : String) : String :=
  ⟨((s.toList.dropWhile Char.isWhitespace).reverse.dropWhile
      Char.isWhitespace).reverse⟩

/-- Characterwise lower-casing, mirroring Python `str.lower()` on the ASCII
identifiers used as model keys. -/
def lowChars (l : List Char) : List Char := l.map Char.toLower

/-- Boolean list-prefix test (used to scan for substring occurrences). -/
def isPref : List Char → List Char → Bool
  | [], _ => true
  | _ :: _, [] => false
  | a :: as, b :: bs => a == b && isPref as bs

/-- Python `pat in s` (substring containment) on character lists. -/
def containsSub (pat : List Char) : List Char → Bool
  | [] => pat.isEmpty
  | c :: cs => isPref pat (c :: cs) || containsSub pat cs

/-! ## CloningAdapter: `tts_engines/xtts_engine.py`

`ModelInfo` embeds one entry of the model catalog
(`config/tts_models_config.py`), keeping the fields the engine reads:
`enabled`, `name`, `model_path`, `languages` and the `"type"` entry (named
`mtype` here because of the Lean keyword). -/

structure ModelInfo where
  enabled : Bool
  name : String
  model_path : String
  languages : List String
  mtype : String
deriving DecidableEq, Repr

/-- `get_enabled_models` of `config/tts_models_config.py`. -/
def get_enabled_models (cfg : List (String × ModelInfo)) :
    List (String × ModelInfo) :=
  cfg.filter (fun p => p.2.enabled)

/-- The `TTS_MODELS_CONFIG` table of `config/tts_models_config.py`
(description / download-size entries are never read by the engine and are
omitted). -/
def TTS_MODELS_CONFIG : List (String × ModelInfo) := [
  ("xtts_v2", ⟨true, "XTTSv2 (Multilingual)",
    "tts_models/multilingual/multi-dataset/xtts_v2",
    ["en", "es", "fr", "de", "it", "pt", "pl", "tr", "ru", "nl", "cs", "ar",
     "zh-cn", "ja", "hu", "ko", "hi"], "xtts"⟩),
  ("your_tts", ⟨true, "YourTTS (Voice Cloning)",
    "tts_models/multilingual/multi-dataset/your_tts",
    ["en", "fr", "pt"], "xtts"⟩),
  ("tacotron2_ddc", ⟨true, "Tacotron2-DDC (English)",
    "tts_models/en/ljspeech/tacotron2-DDC", ["en"], "standard"⟩),
  ("glow_tts", ⟨true, "GlowTTS (English)",
    "tts_models/en/ljspeech/glow-tts", ["en"], "standard"⟩),
  ("jenny", ⟨true, "Jenny (Natural Female)",
    "tts_models/en/jenny/jenny", ["en"], "standard"⟩),
  ("vctk_vits", ⟨true, "VCTK-VITS (Multi-Speaker)",
    "tts_models/en/vctk/vits", ["en"], "multispeaker"⟩),
  ("speedy_speech", ⟨true, "SpeedySpeech (Ultra Fast)",
    "tts_models/en/ljspeech/speedy-speech", ["en"], "fast"⟩)]

/-- `DEFAULT_MODEL` of `xtts_engine.py`. -/
def DEFAULT_MODEL : String := "xtts_v2"

/-- One backend invocation of the Coqui TTS SDK made by the fallback cascade:
either `tts_to_file(text, speaker_wav=…, speaker=…, language=…, file_path=…)`
or `tts(text, speaker_wav=…, language=…)`; a `none` field means the keyword
argument was not passed. -/
inductive XttsCall where
  | tts_to_file (text : String) (speaker_wav : Option String)
      (speaker : Option String) (language : Option String) (file_path : String)
  | tts (text : String) (speaker_wav : Option String) (language : Option String)
deriving DecidableEq, Repr

/-- The module-level globals of `xtts_engine.py`:
`loaded_models : Dict[str, TTS]` and `loaded_device`.  Loaded TTS model
objects are abstracted as numeric handles. -/
structure XttsState where
  loaded_models : List (String × Nat)
  loaded_device : Option String
deriving DecidableEq, Repr

/-- Environment of oracle outcomes for one `xtts_engine` call:
the model catalog (`get_available_models()`), the device chosen by
`get_device()`, the outcome of `TTS(model_path)`+`tts.to(device)` per model
path, the outcome of each backend synthesis invocation (`true` = the call, or
the `sf.write` directly following it, raised), and the filesystem oracles
`os.path.exists` / `os.path.isfile` / `os.path.getsize`. -/
structure XttsEnv where
  available_models : List (String × ModelInfo)
  device : String
  loader : String → Except String Nat
  callFails : XttsCall → Bool
  path_exists : String → Bool
  path_isfile : String → Bool
  file_size : String → Nat

/-- Result of `load_xtts_model`: the returned handle or the raised error
message, the updated globals, and the model paths for which the expensive
loader (`TTS(model_path)`) was actually invoked. -/
structure LoadOutcome where
  result : Except String Nat
  state : XttsState
  loaderCalls : List String
deriving Repr

/-- `load_xtts_model` of `xtts_engine.py`, with explicit recursion fuel.  The
source recursion (the unknown-key fallback re-invokes `load_xtts_model` on
`DEFAULT_MODEL`, which is then found in the catalog) has depth at most 2, so
the fuel-0 branch is unreachable from the wrapper below. -/
def load_xtts_model_fuel (env : XttsEnv) :
    Nat → XttsState → String → Bool → LoadOutcome
  | 0, st, _, _ => ⟨Except.error "recursion limit", st, []⟩
  | fuel + 1, st, model_key, force_reload =>
    let cached := dictGet st.loaded_models model_key
    if h : cached.isSome ∧ st.loaded_device = some env.device ∧
        force_reload = false then
      ⟨Except.ok (cached.get h.1), st, []⟩
    else
      match dictGet env.available_models model_key with
      | none =>
        if (dictGet env.available_models DEFAULT_MODEL).isSome ∧
            model_key ≠ DEFAULT_MODEL then
          load_xtts_model_fuel env fuel st DEFAULT_MODEL force_reload
        else
          ⟨Except.error ("Unknown TTS model: " ++ model_key), st, []⟩
      | some info =>
        match env.loader info.model_path with
        | Except.ok tts =>
          ⟨Except.ok tts,
            ⟨dictInsert st.loaded_models model_key tts, some env.device⟩,
            [info.model_path]⟩
        | Except.error e =>
          ⟨Except.error e,
            ⟨dictErase st.loaded_models model_key, st.loaded_device⟩,
            [info.model_path]⟩

/-- `load_xtts_model(model_key, force_reload)` of `xtts_engine.py`. -/
def load_xtts_model (env : XttsEnv) (st : XttsState) (model_key : String)
    (force_reload : Bool) : LoadOutcome :=
  load_xtts_model_fuel env 2 st model_key force_reload

/-- The XTTS-branch fallback cascade of `synthesize_xtts` (methods 1–4).
Returns the backend invocations in the order they were made and the final
`synthesis_successful` flag. -/
def xtts_branch (env : XttsEnv) (text language output_path : String)
    (valid_speaker : Option String) : List XttsCall × Bool :=
  let call1 :=
    match valid_speaker with
    | some spk => XttsCall.tts_to_file text (some spk) none (some language)
        output_path
    | none => XttsCall.tts_to_file text none none (some language) output_path
  if env.callFails call1 = false then ([call1], true)
  else
    let call2 :=
      match valid_speaker with
      | some spk => XttsCall.tts text (some spk) (some language)
      | none => XttsCall.tts text none (some language)
    if env.callFails call2 = false then ([call1, call2], true)
    else if language ≠ "en" then
      let call3 :=
        match valid_speaker with
        | some spk => XttsCall.tts text (some spk) (some "en")
        | none => XttsCall.tts text none (some "en")
      if env.callFails call3 = false then ([call1, call2, call3], true)
      else
        let call4 := XttsCall.tts text none none
        ([call1, call2, call3, call4], !env.callFails call4)
    else
      let call4 := XttsCall.tts text none none
      ([call1, call2, call4], !env.callFails call4)

/-- The non-XTTS branch of `synthesize_xtts` (multispeaker / standard models,
with the manual `tts()` retry). -/
def non_xtts_branch (env : XttsEnv) (text output_path mtype : String) :
    List XttsCall × Bool :=
  let callA :=
    if mtype = "multispeaker" then
      XttsCall.tts_to_file text none (some "p225") none output_path
    else
      XttsCall.tts_to_file text none none none output_path
  if env.callFails callA = false then ([callA], true)
  else
    let callB := XttsCall.tts text none none
    ([callA, callB], !env.callFails callB)

/-- Result of `synthesize_xtts`: the `(success, message)` pair, the updated
globals, the backend invocations made by the cascade, the loader invocations,
and the value of the (possibly substituted) `language` variable after the
language-handling step (`none` when that step was not reached). -/
structure SynthOutcome where
  result : Bool × String
  state : XttsState
  calls : List XttsCall
  loaderCalls : List String
  effLanguage : Option String
deriving Repr

/-- `synthesize_xtts` of `xtts_engine.py`.  The outer `try/except` makes every
raise inside the body return `(False, "TTS synthesis failed: " + e)`. -/
def synthesize_xtts (env : XttsEnv) (st : XttsState) (text : String)
    (speaker_wav_path : Option String) (language : String)
    (output_path : String) (model_key : String) : SynthOutcome :=
  match dictGet env.available_models model_key with
  | none =>
    ⟨(false, "TTS synthesis failed: Unknown TTS model: " ++ model_key), st,
      [], [], none⟩
  | some model_info =>
    let supported := model_info.languages
    let mtype := model_info.mtype
    let language1 :=
      if language ∉ supported ∧ mtype ≠ "xtts" ∧ "en" ∈ supported then "en"
      else language
    match load_xtts_model env st model_key false with
    | ⟨Except.error e, st1, lc⟩ =>
      ⟨(false, "TTS synthesis failed: " ++ e), st1, [], lc, some language1⟩
    | ⟨Except.ok _tts, st1, lc⟩ =>
      let valid_speaker : Option String :=
        match speaker_wav_path with
        | some s =>
          if pyStrip s ≠ "" ∧ env.path_exists (pyStrip s) = true ∧
              env.path_isfile (pyStrip s) = true then
            some (pyStrip s)
          else none
        | none => none
      let branch :=
        if mtype = "xtts" ∨ mtype = "multilingual" ∨
            containsSub "xtts".toList (lowChars model_key.toList) = true then
          xtts_branch env text language1 output_path valid_speaker
        else
          non_xtts_branch env text output_path mtype
      if branch.2 = false then
        ⟨(false,
          "TTS synthesis failed: All synthesis methods failed - see previous error messages"),
          st1, branch.1, lc, some language1⟩
      else if env.path_exists output_path = false then
        ⟨(false,
          "TTS synthesis failed: Synthesis completed but output file not found: "
            ++ output_path), st1, branch.1, lc, some language1⟩
      else if env.file_size output_path = 0 then
        ⟨(false, "TTS synthesis failed: Output file is empty: " ++ output_path),
          st1, branch.1, lc, some language1⟩
      else
        ⟨(true, "Audio successfully saved to " ++ output_path ++ " (Model: "
            ++ model_info.name ++ ", Size: "
            ++ toString (env.file_size output_path) ++ " bytes)"),
          st1, branch.1, lc, some language1⟩

/-! ## LightweightAdapter: `tts_engines/piper_engine.py` -/

/-- A loaded Piper voice (`PiperVoice.load` result).  `config_ok` models the
`hasattr(voice, 'config') and hasattr(voice.config, 'sample_rate')`
verification; `sample_rate` the declared rate. -/
structure PiperVoice where
  vid : Nat
  config_ok : Bool
  sample_rate : Nat
deriving DecidableEq, Repr

/-- The module-level global `loaded_voices` of `piper_engine.py`
(key = the ONNX path). -/
structure PiperState where
  loaded_voices : List (String × PiperVoice)
deriving DecidableEq, Repr

/-- Oracles for one `piper_engine` call: `os.path.exists`, the outcome of
`PiperVoice.load(onnx_path, config_path)`, and the outcome of the WAV-writing
block (`wave.open` + parameter setup + `voice.synthesize`) for a given output
path. -/
structure PiperEnv where
  path_exists : String → Bool
  loader : String → String → Except String PiperVoice
  synth : String → Except String Unit

/-- Result of `load_piper_model`: returned voice or raised error, updated
cache, and the `(onnx, json)` pairs for which `PiperVoice.load` was invoked. -/
structure PiperLoadOutcome where
  result : Except String PiperVoice
  state : PiperState
  loaderCalls : List (String × String)
deriving Repr

/-- `load_piper_model` of `piper_engine.py`.  Note the order of the source
checks: empty-path guard, then the cache lookup, then the on-disk existence
checks, then the guarded `PiperVoice.load`. -/
def load_piper_model (env : PiperEnv) (st : PiperState)
    (onnx_path json_path : String) (force_reload : Bool) : PiperLoadOutcome :=
  if onnx_path = "" ∨ json_path = "" then
    ⟨Except.error "Zowel ONNX als JSON paden zijn vereist voor Piper.", st, []⟩
  else
    let cached := dictGet st.loaded_voices onnx_path
    if h : cached.isSome ∧ force_reload = false then
      ⟨Except.ok (cached.get h.1), st, []⟩
    else if env.path_exists onnx_path = false then
      ⟨Except.error ("Piper model ONNX bestand niet gevonden: " ++ onnx_path),
        st, []⟩
    else if env.path_exists json_path = false then
      ⟨Except.error ("Piper model JSON bestand niet gevonden: " ++ json_path),
        st, []⟩
    else
      match env.loader onnx_path json_path with
      | Except.error e =>
        ⟨Except.error e, ⟨dictErase st.loaded_voices onnx_path⟩,
          [(onnx_path, json_path)]⟩
      | Except.ok voice =>
        if voice.config_ok = false then
          ⟨Except.error "voice.config of voice.config.sample_rate ontbreekt!",
            ⟨dictErase st.loaded_voices onnx_path⟩, [(onnx_path, json_path)]⟩
        else
          ⟨Except.ok voice, ⟨dictInsert st.loaded_voices onnx_path voice⟩,
            [(onnx_path, json_path)]⟩

/-- Result of `synthesize_piper`. -/
structure PiperSynthOutcome where
  result : Bool × String
  state : PiperState
  loaderCalls : List (String × String)
deriving Repr

/-- `synthesize_piper` of `piper_engine.py`: every raise inside the body is
caught and turned into `(False, "Piper synthese mislukt: " + e)`. -/
def synthesize_piper (env : PiperEnv) (st : PiperState)
    (_text onnx_path json_path output_path : String) : PiperSynthOutcome :=
  match load_piper_model env st onnx_path json_path false with
  | ⟨Except.error e, st1, lc⟩ =>
    ⟨(false, "Piper synthese mislukt: " ++ e), st1, lc⟩
  | ⟨Except.ok _voice, st1, lc⟩ =>
    match env.synth output_path with
    | Except.error e => ⟨(false, "Piper synthese mislukt: " ++ e), st1, lc⟩
    | Except.ok _ =>
      ⟨(true, "Audio succesvol opgeslagen in " ++ output_path), st1, lc⟩

/-! ## GenerativeAdapter: `tts_engines/bark_engine.py` -/

/-- The module-level globals `loaded_processor`, `loaded_model`,
`loaded_device` of `bark_engine.py` (processor/model objects abstracted as
numeric handles). -/
structure BarkState where
  loaded_processor : Option Nat
  loaded_model : Option Nat
  loaded_device : Option String
deriving DecidableEq, Repr

/-- `DEFAULT_BARK_MODEL_NAME` of `bark_engine.py`. -/
def DEFAULT_BARK_MODEL_NAME : String := "suno/bark-small"

/-- Oracles for one `bark_engine` call: the device, the outcome of
`AutoProcessor.from_pretrained` + `BarkModel.from_pretrained(...).to(device)`
per model name, and the outcome of the generation chain (processor call,
`model.generate`, dtype conversion, `sf.write`) per `(text, voice_preset,
output_path)`. -/
structure BarkEnv where
  device : String
  loader : String → Except String (Nat × Nat)
  gen : String → String → String → Except String Unit

/-- Result of `load_bark_model`. -/
structure BarkLoadOutcome where
  result : Except String (Nat × Nat)
  state : BarkState
  loaderCalls : List String
deriving Repr

/-- `load_bark_model` of `bark_engine.py`.  The cache-hit check looks only at
the presence of the globals and the device — it does not compare
`model_name` against the cached model. -/
def load_bark_model (env : BarkEnv) (st : BarkState) (model_name : String)
    (force_reload : Bool) : BarkLoadOutcome :=
  if h : st.loaded_model.isSome ∧ st.loaded_processor.isSome ∧
      st.loaded_device = some env.device ∧ force_reload = false then
    ⟨Except.ok (st.loaded_processor.get h.2.1, st.loaded_model.get h.1), st, []⟩
  else
    match env.loader model_name with
    | Except.ok pm =>
      ⟨Except.ok pm, ⟨some pm.1, some pm.2, some env.device⟩, [model_name]⟩
    | Except.error e => ⟨Except.error e, ⟨none, none, none⟩, [model_name]⟩

/-- Result of `synthesize_bark`.  The result is `Option`-valued because the
source's `except` handler does not return: bark_engine.py line 140 reads
`logging.error(error_details)  # Log de geformatteerde string        return False, f"Bark synthese mislukt: {e}"`
— the `return` statement sits inside the trailing comment, so on any raised
exception the Python function falls off the end and returns `None`. -/
structure BarkSynthOutcome where
  result : Option (Bool × String)
  state : BarkState
  loaderCalls : List String
deriving Repr

/-- `synthesize_bark` of `bark_engine.py` (see `BarkSynthOutcome` for the
`None` result on the exception path). -/
def synthesize_bark (env : BarkEnv) (st : BarkState)
    (text voice_preset output_path model_name : String) : BarkSynthOutcome :=
  match load_bark_model env st model_name false with
  | ⟨Except.error _e, st1, lc⟩ => ⟨none, st1, lc⟩
  | ⟨Except.ok _pm, st1, lc⟩ =>
    match env.gen text voice_preset output_path with
    | Except.error _e => ⟨none, st1, lc⟩
    | Except.ok _ =>
      ⟨some (true, "Audio succesvol opgeslagen in " ++ output_path), st1, lc⟩

/-! ## HostedAdapter: `tts_engines/elevenlabs_engine.py` -/

/-- One entry of `client.voices.get_all().voices` (only the fields the engine
reads); an empty string models a missing/empty (falsy) attribute. -/
structure ElVoice where
  name : String
  voice_id : String
deriving DecidableEq, Repr

/-- The two typed errors `get_elevenlabs_voices` can raise: `valueError` is
Python's `ValueError` (caller error: missing credential), `runtimeError` is
`RuntimeError` (remote error). -/
inductive ElevenErr where
  | valueError (msg : String)
  | runtimeError (msg : String)
deriving DecidableEq, Repr

/-- Oracle for one `get_elevenlabs_voices` call: the outcome of the remote
`client.voices.get_all()` call (an `error` meaning the call raised, HTTP or
otherwise). -/
structure ElVoicesEnv where
  get_all_voices : Except String (List ElVoice)

/-- Result of `get_elevenlabs_voices`, plus whether the remote service was
contacted at all. -/
structure VoicesOutcome where
  result : Except ElevenErr (List (String × String))
  remoteCalled : Bool

/-- `get_elevenlabs_voices` of `elevenlabs_engine.py`:
`sorted([(v.name, v.voice_id) for v in voice_list if v.name and v.voice_id],
key=lambda item: item[0])` is a stable merge sort on the display name. -/
def get_elevenlabs_voices (env : ElVoicesEnv) (api_key : Option String) :
    VoicesOutcome :=
  if api_key = none ∨ api_key = some "" then
    ⟨Except.error
      (ElevenErr.valueError "API key is required to fetch ElevenLabs voices."),
      false⟩
  else
    match env.get_all_voices with
    | Except.error e =>
      ⟨Except.error
        (ElevenErr.runtimeError ("Could not fetch ElevenLabs voices: " ++ e)),
        true⟩
    | Except.ok voice_list =>
      let pairs := (voice_list.filter
          (fun v => v.name ≠ "" ∧ v.voice_id ≠ "")).map
          (fun v => (v.name, v.voice_id))
      ⟨Except.ok (pairs.mergeSort (fun a b => decide (a.1 ≤ b.1))), true⟩

/-- Outcome of the remote `client.generate(...)` call in
`synthesize_elevenlabs`: produced audio, raised `httpx.HTTPStatusError`
(status code plus the detail text `_parse_elevenlabs_error_details`
extracts), or raised some other exception. -/
inductive ElApiOutcome where
  | ok (audio : Nat)
  | httpError (status : Nat) (detail : String)
  | exn (msg : String)
deriving DecidableEq, Repr

/-- Outcome of the `pydub` MP3→WAV conversion block: converted, `ImportError`
(pydub missing), or some other exception while converting. -/
inductive ConvOutcome where
  | converted
  | importFailed
  | convRaised (msg : String)
deriving DecidableEq, Repr

/-- Oracles for one `synthesize_elevenlabs` call. -/
structure ElSynthEnv where
  api : ElApiOutcome
  save : Except String Unit
  conv : ConvOutcome

/-- The `user_message` computed for an `httpx.HTTPStatusError` in
`synthesize_elevenlabs`. -/
def httpUserMessage (status : Nat) (detail : String) : String :=
  if status = 401 then "Authentication Error (401): Check API Key."
  else if status = 402 then "Quota Error (402): Character limit likely reached."
  else if status = 422 then "Validation Error (422): " ++ detail
  else "HTTP Error (" ++ toString status ++ "): " ++ detail

/-! ### Python `str.replace` (all occurrences, left to right)

`replaceAllF` carries explicit fuel (one unit per scanned position) so the
definition is structural and kernel-evaluable; `replaceAll` instantiates the
fuel with the list length, which suffices since each step consumes at least
one list element. -/

def replaceAllF (pat rep : List Char) : Nat → List Char → List Char
  | _, [] => []
  | 0, l => l
  | fuel + 1, c :: cs =>
    if pat ≠ [] ∧ isPref pat (c :: cs) = true then
      rep ++ replaceAllF pat rep fuel (cs.drop (pat.length - 1))
    else
      c :: replaceAllF pat rep fuel cs

def replaceAll (pat rep l : List Char) : List Char :=
  replaceAllF pat rep l.length l

/-- Python `s.replace(pat, rep)` for a non-empty `pat`. -/
def pyReplace (s pat rep : String) : String :=
  ⟨replaceAll pat.toList rep.toList s.toList⟩

/-- The intermediate lossy path computed in `synthesize_elevenlabs`:
`output_path_mp3 = output_path.replace(".wav", ".mp3")` followed by
`if output_path_mp3 == output_path: output_path_mp3 += ".mp3"`. -/
def output_path_mp3 (output_path : String) : String :=
  let p := pyReplace output_path ".wav" ".mp3"
  if p = output_path then output_path ++ ".mp3" else p

/-- `synthesize_elevenlabs` of `elevenlabs_engine.py`. -/
def synthesize_elevenlabs (env : ElSynthEnv) (api_key : Option String)
    (text voice_id model_id output_path : String) : Bool × String :=
  if api_key = none ∨ api_key = some "" then
    (false, "API key is required for ElevenLabs synthesis.")
  else if voice_id = "" then (false, "No ElevenLabs voice ID selected.")
  else if model_id = "" then (false, "No ElevenLabs model ID selected.")
  else if text = "" ∨ pyStrip text = "" then
    (false, "No text entered for synthesis.")
  else
    match env.api with
    | ElApiOutcome.httpError status detail =>
      (false, "ElevenLabs Error: " ++ httpUserMessage status detail)
    | ElApiOutcome.exn e => (false, "ElevenLabs synthesis failed: " ++ e)
    | ElApiOutcome.ok _audio =>
      let mp3 := output_path_mp3 output_path
      match env.save with
      | Except.error e => (false, "ElevenLabs synthesis failed: " ++ e)
      | Except.ok _ =>
        match env.conv with
        | ConvOutcome.converted =>
          (true, "Audio successfully synthesized and saved as WAV in "
            ++ output_path)
        | ConvOutcome.importFailed =>
          (true, "Audio successfully saved (as MP3!) in " ++ mp3)
        | ConvOutcome.convRaised _ =>
          (true, "Audio successfully saved (as MP3!) in " ++ mp3
            ++ ". Conversion to WAV failed.")

/-! ## Concrete environments and states used to instantiate the theorems -/

/-- Empty bark cache (process start). -/
def barkSt0 : BarkState := ⟨none, none, none⟩

/-- Bark oracle where the model loader raises. -/
def envBarkFail : BarkEnv :=
  ⟨"cpu", fun _ => Except.error "model load failed", fun _ _ _ => Except.ok ()⟩

/-- Empty piper cache (process start). -/
def piperSt0 : PiperState := ⟨[]⟩

/-- Piper oracle where the voice loader raises (files present). -/
def envPiperFail : PiperEnv :=
  ⟨fun _ => true, fun _ _ => Except.error "load boom", fun _ => Except.ok ()⟩

/-- Empty xtts cache (process start). -/
def xttsSt0 : XttsState := ⟨[], none⟩

/-- Xtts oracle where the model loader raises (everything else benign). -/
def envXttsFail : XttsEnv :=
  ⟨get_enabled_models TTS_MODELS_CONFIG, "cpu",
    fun _ => Except.error "load boom", fun _ => false, fun _ => true,
    fun _ => true, fun _ => 1000⟩

/-- ElevenLabs synthesis oracle where the remote call raises a generic
exception. -/
def envElExn : ElSynthEnv :=
  ⟨ElApiOutcome.exn "boom", Except.ok (), ConvOutcome.converted⟩

/-- ElevenLabs synthesis oracle: remote call fine, pydub missing. -/
def envElDegraded : ElSynthEnv :=
  ⟨ElApiOutcome.ok 7, Except.ok (), ConvOutcome.importFailed⟩

/-- Piper oracle with both model files present and a working loader. -/
def envPiperLive : PiperEnv :=
  ⟨fun _ => true, fun _ _ => Except.ok ⟨1, true, 22050⟩, fun _ => Except.ok ()⟩

/-- Piper oracle where no file exists on disk any more (and whose loader
would report if it were ever invoked). -/
def envPiperGone : PiperEnv :=
  ⟨fun _ => false, fun _ _ => Except.error "loader must not be called",
    fun _ => Except.ok ()⟩

/-- Piper cache after a successful load of `m.onnx` under `envPiperLive`. -/
def piperStCached : PiperState :=
  (load_piper_model envPiperLive piperSt0 "m.onnx" "m.onnx.json" false).state

/-- Xtts oracle like `envXttsFail` but with a working loader. -/
def envXttsOk : XttsEnv :=
  ⟨get_enabled_models TTS_MODELS_CONFIG, "cpu", fun _ => Except.ok 1,
    fun _ => false, fun _ => true, fun _ => true, fun _ => 1000⟩

/-- `envXttsOk` after the accelerator appeared (device changed). -/
def envXttsCuda : XttsEnv :=
  ⟨get_enabled_models TTS_MODELS_CONFIG, "cuda", fun _ => Except.ok 2,
    fun _ => false, fun _ => true, fun _ => true, fun _ => 1000⟩

/-- An xtts cache holding `xtts_v2` (handle 5), loaded on `"cpu"`. -/
def xttsStCached : XttsState := ⟨[("xtts_v2", 5)], some "cpu"⟩

/-- A piper cache holding `m.onnx`. -/
def piperStHas : PiperState := ⟨[("m.onnx", ⟨1, true, 22050⟩)]⟩

/-- A bark cache holding a processor/model pair loaded on `"cpu"`. -/
def barkStCached : BarkState := ⟨some 3, some 4, some "cpu"⟩

/-- Bark oracle on device `"cuda"` with a working loader. -/
def envBarkCuda : BarkEnv :=
  ⟨"cuda", fun _ => Except.ok (8, 9), fun _ _ _ => Except.ok ()⟩

/-- The `speaker_wav` keyword argument of a backend invocation (if passed). -/
def XttsCall.speakerWavArg : XttsCall → Option String
  | XttsCall.tts_to_file _ sw _ _ _ => sw
  | XttsCall.tts _ sw _ => sw

/-- The `language` keyword argument of a backend invocation (if passed). -/
def XttsCall.langArg : XttsCall → Option String
  | XttsCall.tts_to_file _ _ _ lang _ => lang
  | XttsCall.tts _ _ lang => lang

/-- Xtts oracle in which exactly the method-1 invocation (with reference
audio `ref.wav`) raises, and every other backend call succeeds. -/
def envC2 : XttsEnv :=
  ⟨get_enabled_models TTS_MODELS_CONFIG, "cpu", fun _ => Except.ok 1,
    fun c => decide (c = XttsCall.tts_to_file "Test" (some "ref.wav") none
      (some "en") "out.wav"),
    fun _ => true, fun _ => true, fun _ => 1000⟩

/-! ## Helper lemmas -/

theorem dictKeys_nil {α : Type} : dictKeys ([] : List (String × α)) = [] := rfl

theorem dictKeys_cons {α : Type} (p : String × α) (ps : List (String × α)) :
    dictKeys (p :: ps) = p.1 :: dictKeys ps := rfl

theorem dictGet_dictErase {α : Type} (l : List (String × α)) (k : String) :
    dictGet (dictErase l k) k = none := by
  induction l with
  | nil => rfl
  | cons p ps ih =>
    by_cases h : p.1 = k
    · simpa [dictErase, dictGet, h] using ih
    · simpa [dictErase, dictGet, h] using ih

theorem dictGet_eq_none_iff {α : Type} (l : List (String × α)) (k : String) :
    dictGet l k = none ↔ k ∉ dictKeys l := by
  induction l with
  | nil => simp [dictGet, dictKeys_nil]
  | cons p ps ih =>
    by_cases h : p.1 = k
    · simp [dictGet, dictKeys_cons, h]
    · simp only [dictGet, dictKeys_cons, h, if_false, ih, List.mem_cons]
      constructor
      · intro hn hor
        rcases hor with hor | hor
        · exact h hor.symm
        · exact hn hor
      · intro hn hmem
        exact hn (Or.inr hmem)

theorem dictKeys_dictInsert {α : Type} (l : List (String × α)) (k : String)
    (v : α) :
    dictKeys (dictInsert l k v) =
      if (dictGet l k).isSome then dictKeys l else dictKeys l ++ [k] := by
  induction l with
  | nil => simp [dictInsert, dictGet, dictKeys_nil, dictKeys_cons]
  | cons p ps ih =>
    by_cases h : p.1 = k
    · simp [dictInsert, dictGet, dictKeys_cons, h]
    · by_cases h2 : (dictGet ps k).isSome
      · simp [dictInsert, dictGet, dictKeys_cons, h, h2, ih]
      · simp [dictInsert, dictGet, dictKeys_cons, h, h2, ih]

theorem nodup_dictKeys_dictInsert {α : Type} (l : List (String × α))
    (k : String) (v : α) (h : (dictKeys l).Nodup) :
    (dictKeys (dictInsert l k v)).Nodup := by
  rw [dictKeys_dictInsert]
  by_cases h2 : (dictGet l k).isSome
  · simpa [h2] using h
  · have hk : k ∉ dictKeys l := by
      rw [← dictGet_eq_none_iff]
      exact Option.not_isSome_iff_eq_none.mp h2
    rw [if_neg h2, List.nodup_append]
    refine ⟨h, List.nodup_singleton k, ?_⟩
    intro a ha hb
    simp only [List.mem_singleton] at hb
    exact hk (hb ▸ ha)

theorem nodup_dictKeys_dictErase {α : Type} (l : List (String × α))
    (k : String) (h : (dictKeys l).Nodup) :
    (dictKeys (dictErase l k)).Nodup := by
  refine List.Nodup.sublist ?_ h
  exact List.Sublist.map Prod.fst (List.filter_sublist l)

theorem isPref_exists {p l : List Char} (h : isPref p l = true) :
    ∃ t, l = p ++ t := by
  induction p generalizing l with
  | nil => exact ⟨l, rfl⟩
  | cons a as ih =>
    cases l with
    | nil => simp [isPref] at h
    | cons b bs =>
      simp only [isPref, Bool.and_eq_true, beq_iff_eq] at h
      rcases ih h.2 with ⟨t, ht⟩
      exact ⟨t, by simp [h.1, ht]⟩

theorem replaceAllF_of_not_contains (pat rep : List Char) :
    ∀ (fuel : Nat) (l : List Char), containsSub pat l = false →
      replaceAllF pat rep fuel l = l := by
  intro fuel
  induction fuel with
  | zero =>
    intro l _
    cases l <;> rfl
  | succ n ih =>
    intro l hl
    cases l with
    | nil => rfl
    | cons c cs =>
      simp only [containsSub, Bool.or_eq_false_iff] at hl
      have hnp : ¬(pat ≠ [] ∧ isPref pat (c :: cs) = true) := by
        rintro ⟨-, hpref⟩
        rw [hl.1] at hpref
        exact Bool.false_ne_true hpref
      simp only [replaceAllF, if_neg hnp]
      rw [ih cs hl.2]

theorem replaceAllF_ne_of_contains (pat rep : List Char) (hne : pat ≠ [])
    (hlen : rep.length = pat.length) (hdiff : rep ≠ pat) :
    ∀ (fuel : Nat) (l : List Char), l.length ≤ fuel →
      containsSub pat l = true → replaceAllF pat rep fuel l ≠ l := by
  intro fuel
  induction fuel with
  | zero =>
    intro l hlf hl
    have : l = [] := List.length_eq_zero.mp (Nat.le_zero.mp hlf)
    subst this
    simp [containsSub, List.isEmpty_iff, hne] at hl
  | succ n ih =>
    intro l hlf hl
    cases l with
    | nil => simp [containsSub, List.isEmpty_iff, hne] at hl
    | cons c cs =>
      by_cases hpref : isPref pat (c :: cs) = true
      · simp only [replaceAllF, if_pos (And.intro hne hpref)]
        intro heq
        rcases isPref_exists hpref with ⟨u, hu⟩
        rw [hu] at heq
        have := List.append_inj heq (by rw [hlen])
        exact hdiff this.1
      · have hnp : ¬(pat ≠ [] ∧ isPref pat (c :: cs) = true) := by
          rintro ⟨-, hp⟩
          exact hpref hp
        simp only [replaceAllF, if_neg hnp]
        have hcs : containsSub pat cs = true := by
          simp only [containsSub, Bool.or_eq_true] at hl
          rcases hl with hl | hl
          · exact absurd hl hpref
          · exact hl
        have hlen2 : cs.length ≤ n := by
          simpa [List.length_cons, Nat.succ_le_succ_iff] using hlf
        intro heq
        exact ih cs hlen2 hcs (by injection heq)

theorem replaceAll_eq_self_iff (pat rep : List Char) (hne : pat ≠ [])
    (hlen : rep.length = pat.length) (hdiff : rep ≠ pat) (l : List Char) :
    replaceAll pat rep l = l ↔ containsSub pat l = false := by
  constructor
  · intro h
    by_contra hc
    have hc' : containsSub pat l = true := by
      cases hcs : containsSub pat l
      · exact absurd hcs hc
      · rfl
    exact replaceAllF_ne_of_contains pat rep hne hlen hdiff l.length l
      (Nat.le_refl _) hc' h
  · intro h
    exact replaceAllF_of_not_contains pat rep l.length l h

/-! ## C1 -/

/-- C1: "for every adapter and every input, synthesize returns a
(success, message) pair and never lets an exception escape: whenever any
exception is raised during synthesis the call returns (False, m)".  The code
violates this for the GenerativeAdapter: in `synthesize_bark` the `except`
handler's `return False, …` statement sits inside a trailing comment
(bark_engine.py line 140), so the function returns `None` — not a pair —
whenever an exception is raised.  Evaluated here at a concrete failing input
(the loader raises), next to the three adapters that do honour the contract
at analogous failing inputs. -/
theorem c1_bark_error_path_returns_none :
    (synthesize_bark envBarkFail barkSt0 "Hello" "v2/en_speaker_6" "out.wav"
      DEFAULT_BARK_MODEL_NAME).result = none
    ∧ (synthesize_piper envPiperFail piperSt0 "Hello" "m.onnx" "m.onnx.json"
        "out.wav").result = (false, "Piper synthese mislukt: load boom")
    ∧ (synthesize_xtts envXttsFail xttsSt0 "Hello" none "en" "out.wav"
        "xtts_v2").result = (false, "TTS synthesis failed: load boom")
    ∧ synthesize_elevenlabs envElExn (some "key") "Hello" "v" "m" "out.wav"
        = (false, "ElevenLabs synthesis failed: boom") := by
  refine ⟨rfl, rfl, ?_, ?_⟩ <;> decide

/-! ## C8 -/

/-- C8: for every HostedAdapter synthesize call in which the remote call
succeeded and the MP3 was saved but MP3→WAV transcoding is unavailable
(ImportError) or raises, the call still returns success=true and the message
names the lossy (MP3) file's path. -/
theorem c8_degraded_delivery_is_success (env : ElSynthEnv)
    (key text voice_id model_id output_path : String) (a : Nat)
    (hkey : key ≠ "") (hvoice : voice_id ≠ "") (hmodel : model_id ≠ "")
    (htext : ¬(text = "" ∨ pyStrip text = ""))
    (happi : env.api = ElApiOutcome.ok a) (hsave : env.save = Except.ok ())
    (hconv : env.conv = ConvOutcome.importFailed ∨
      ∃ m, env.conv = ConvOutcome.convRaised m) :
    (synthesize_elevenlabs env (some key) text voice_id model_id
        output_path).1 = true
    ∧ ∃ tail, (synthesize_elevenlabs env (some key) text voice_id model_id
        output_path).2
      = "Audio successfully saved (as MP3!) in " ++ output_path_mp3 output_path
        ++ tail := by
  have h1 : ¬(some key = none ∨ (some key = some "")) := by simp [hkey]
  rcases hconv with hconv | ⟨m, hconv⟩ <;>
    simp only [synthesize_elevenlabs, if_neg h1, if_neg hvoice, if_neg hmodel,
      if_neg htext, happi, hsave, hconv]
  · exact ⟨trivial, "", by simp⟩
  · exact ⟨trivial, ". Conversion to WAV failed.", rfl⟩

/-- Witness for C8 at a concrete degraded-delivery run. -/
theorem c8_degraded_delivery_is_success_witness :
    (synthesize_elevenlabs envElDegraded (some "key") "Hello" "v" "m"
        "out.wav").1 = true
    ∧ ∃ tail, (synthesize_elevenlabs envElDegraded (some "key") "Hello" "v" "m"
        "out.wav").2
      = "Audio successfully saved (as MP3!) in " ++ output_path_mp3 "out.wav"
        ++ tail :=
  c8_degraded_delivery_is_success envElDegraded "key" "Hello" "v" "m" "out.wav"
    7 (by decide) (by decide) (by decide) (by decide) rfl rfl (Or.inl rfl)

/-! ## C9 -/

/-- C9: `get_elevenlabs_voices` raises the caller-error kind (`ValueError`)
on an absent/empty credential without contacting the remote service; with a
credential it raises the distinct remote-error kind (`RuntimeError`) when the
remote call fails; and on success the returned (display name, remote id)
pairs are sorted by display name.  The two error kinds are distinct. -/
theorem c9_fetch_voices_error_kinds_and_order :
    (∀ (env : ElVoicesEnv) (k : Option String), (k = none ∨ k = some "") →
      (get_elevenlabs_voices env k).result
        = Except.error (ElevenErr.valueError
            "API key is required to fetch ElevenLabs voices.")
      ∧ (get_elevenlabs_voices env k).remoteCalled = false)
    ∧ (∀ (env : ElVoicesEnv) (s e : String), s ≠ "" →
      env.get_all_voices = Except.error e →
      (get_elevenlabs_voices env (some s)).result
        = Except.error (ElevenErr.runtimeError
            ("Could not fetch ElevenLabs voices: " ++ e))
      ∧ (get_elevenlabs_voices env (some s)).remoteCalled = true)
    ∧ (∀ (env : ElVoicesEnv) (s : String) (vl : List ElVoice), s ≠ "" →
      env.get_all_voices = Except.ok vl →
      ∃ l, (get_elevenlabs_voices env (some s)).result = Except.ok l
        ∧ l.Pairwise (fun a b => a.1 ≤ b.1))
    ∧ (∀ m1 m2 : String, ElevenErr.valueError m1 ≠ ElevenErr.runtimeError m2) := by
  refine ⟨?_, ?_, ?_, ?_⟩
  · rintro env k (rfl | rfl) <;> exact ⟨rfl, rfl⟩
  · intro env s e hs hrem
    have h1 : ¬(some s = none ∨ (some s = (some "" : Option String))) := by
      simp [hs]
    constructor <;> simp only [get_elevenlabs_voices, if_neg h1, hrem]
  · intro env s vl hs hrem
    have h1 : ¬(some s = none ∨ (some s = (some "" : Option String))) := by
      simp [hs]
    refine ⟨((vl.filter (fun v => v.name ≠ "" ∧ v.voice_id ≠ "")).map
        (fun v => (v.name, v.voice_id))).mergeSort
        (fun a b => decide (a.1 ≤ b.1)), ?_, ?_⟩
    · simp only [get_elevenlabs_voices, if_neg h1, hrem]
    have htrans : ∀ a b c : String × String,
        (fun x y : String × String => decide (x.1 ≤ y.1)) a b = true →
        (fun x y : String × String => decide (x.1 ≤ y.1)) b c = true →
        (fun x y : String × String => decide (x.1 ≤ y.1)) a c = true := by
      intro a b c hab hbc
      simp only [decide_eq_true_iff] at *
      exact le_trans hab hbc
    have htotal : ∀ a b : String × String,
        ((fun x y : String × String => decide (x.1 ≤ y.1)) a b
          || (fun x y : String × String => decide (x.1 ≤ y.1)) b a) = true := by
      intro a b
      rcases le_total a.1 b.1 with h | h <;> simp [h]
    have := List.sorted_mergeSort htrans htotal
      ((vl.filter (fun v => v.name ≠ "" ∧ v.voice_id ≠ "")).map
        (fun v => (v.name, v.voice_id)))
    exact this.imp (fun hab => by simpa [decide_eq_true_iff] using hab)
  · intro m1 m2 h
    exact ElevenErr.noConfusion h

/-- Witness for C9 at concrete inputs: an empty credential, a failing remote,
and a successful remote fetch. -/
theorem c9_fetch_voices_error_kinds_and_order_witness :
    ((get_elevenlabs_voices ⟨Except.ok []⟩ (some "")).result
        = Except.error (ElevenErr.valueError
            "API key is required to fetch ElevenLabs voices.")
      ∧ (get_elevenlabs_voices ⟨Except.ok []⟩ (some "")).remoteCalled = false)
    ∧ ((get_elevenlabs_voices ⟨Except.error "503"⟩ (some "key")).result
        = Except.error (ElevenErr.runtimeError
            ("Could not fetch ElevenLabs voices: " ++ "503"))
      ∧ (get_elevenlabs_voices ⟨Except.error "503"⟩ (some "key")).remoteCalled
        = true)
    ∧ (∃ l, (get_elevenlabs_voices ⟨Except.ok [⟨"Bella", "b1"⟩, ⟨"Adam", "a1"⟩]⟩
          (some "key")).result = Except.ok l
        ∧ l.Pairwise (fun a b => a.1 ≤ b.1)) :=
  ⟨c9_fetch_voices_error_kinds_and_order.1 ⟨Except.ok []⟩ (some "")
      (Or.inr rfl),
    c9_fetch_voices_error_kinds_and_order.2.1 ⟨Except.error "503"⟩ "key" "503"
      (by decide) rfl,
    c9_fetch_voices_error_kinds_and_order.2.2.1
      ⟨Except.ok [⟨"Bella", "b1"⟩, ⟨"Adam", "a1"⟩]⟩ "key"
      [⟨"Bella", "b1"⟩, ⟨"Adam", "a1"⟩] (by decide) rfl⟩

/-! ## C10 -/

/-- C10: the HostedAdapter's intermediate lossy path replaces every `".wav"`
substring of the requested output path by `".mp3"`, appends `".mp3"` when the
replacement left the path unchanged (equivalently: when the path has no
`".wav"` substring), and is therefore never equal to the requested output
path, so the degraded-delivery file can never overwrite the canonical
destination. -/
theorem c10_mp3_path_never_collides (s : String) :
    output_path_mp3 s ≠ s
    ∧ (pyReplace s ".wav" ".mp3" = s → output_path_mp3 s = s ++ ".mp3")
    ∧ (pyReplace s ".wav" ".mp3" ≠ s →
        output_path_mp3 s = pyReplace s ".wav" ".mp3")
    ∧ (pyReplace s ".wav" ".mp3" = s
        ↔ containsSub ".wav".toList s.toList = false) := by
  have hiff : pyReplace s ".wav" ".mp3" = s
      ↔ containsSub ".wav".toList s.toList = false := by
    rw [pyReplace, String.ext_iff]
    exact replaceAll_eq_self_iff ".wav".toList ".mp3".toList (by decide)
      (by decide) (by decide) s.toList
  refine ⟨?_, ?_, ?_, hiff⟩
  · by_cases hr : pyReplace s ".wav" ".mp3" = s
    · rw [output_path_mp3]
      simp only [hr, if_pos]
      intro h
      have hlen := congrArg String.length h
      rw [String.length_append] at hlen
      have h4 : (".mp3" : String).length = 4 := rfl
      omega
    · rw [output_path_mp3]
      simp only [if_neg hr]
      exact hr
  · intro hr
    rw [output_path_mp3]
    simp only [hr, if_pos]
  · intro hr
    rw [output_path_mp3]
    simp only [if_neg hr]

/-- Witness for C10 at concrete paths with and without a `".wav"`
substring. -/
theorem c10_mp3_path_never_collides_witness :
    output_path_mp3 "out.wav" ≠ "out.wav"
    ∧ output_path_mp3 "out.wav" = pyReplace "out.wav" ".wav" ".mp3"
    ∧ output_path_mp3 "clip.ogg" = "clip.ogg" ++ ".mp3" :=
  ⟨(c10_mp3_path_never_collides "out.wav").1,
    (c10_mp3_path_never_collides "out.wav").2.2.1 (by decide),
    (c10_mp3_path_never_collides "clip.ogg").2.1 (by decide)⟩

/-! ## C4 -/

/-- Counterexample to C4 as stated: with the voice already cached, a
`synthesize_piper` call whose artifact paths no longer exist on disk is NOT
rejected — it returns success (the cache lookup precedes the existence
checks), rather than the claimed `(False, …not found…)`. -/
theorem c4_counterexample_cached_voice_skips_existence_check :
    (synthesize_piper envPiperGone piperStCached "Hello" "m.onnx"
        "m.onnx.json" "out.wav").result
      = (true, "Audio succesvol opgeslagen in out.wav")
    ∧ envPiperGone.path_exists "m.onnx" = false := by
  exact ⟨rfl, rfl⟩

/-- C4 (amended): provided the voice is not already cached, both artifact
paths are existence-checked before any backend invocation; if either is
missing, the call returns `(False, m)` with the distinct not-found message
and the resource loader is never invoked. -/
theorem c4_missing_artifact_fails_without_load (env : PiperEnv)
    (st : PiperState) (text onnx json out : String) (h1 : onnx ≠ "")
    (h2 : json ≠ "") (hmiss : dictGet st.loaded_voices onnx = none)
    (hgone : env.path_exists onnx = false ∨ env.path_exists json = false) :
    ((synthesize_piper env st text onnx json out).result
        = (false, "Piper synthese mislukt: "
            ++ ("Piper model ONNX bestand niet gevonden: " ++ onnx))
      ∨ (synthesize_piper env st text onnx json out).result
        = (false, "Piper synthese mislukt: "
            ++ ("Piper model JSON bestand niet gevonden: " ++ json)))
    ∧ (synthesize_piper env st text onnx json out).loaderCalls = [] := by
  have hcond : ¬(onnx = "" ∨ json = "") := by
    rintro (h | h)
    · exact h1 h
    · exact h2 h
  by_cases hon : env.path_exists onnx = false
  · simp only [synthesize_piper, load_piper_model, if_neg hcond, hmiss,
      Option.isSome_none, Bool.false_eq_true, false_and, dite_false,
      if_pos hon]
    exact ⟨Or.inl trivial, trivial⟩
  · have hj : env.path_exists json = false := hgone.resolve_left hon
    simp only [synthesize_piper, load_piper_model, if_neg hcond, hmiss,
      Option.isSome_none, Bool.false_eq_true, false_and, dite_false,
      if_neg hon, if_pos hj]
    exact ⟨Or.inr trivial, trivial⟩

/-- Witness for the amended C4 at a concrete uncached missing-file call. -/
theorem c4_missing_artifact_fails_without_load_witness :
    ((synthesize_piper envPiperGone piperSt0 "Hello" "m.onnx" "m.onnx.json"
        "out.wav").result
      = (false, "Piper synthese mislukt: "
          ++ ("Piper model ONNX bestand niet gevonden: " ++ "m.onnx"))
      ∨ (synthesize_piper envPiperGone piperSt0 "Hello" "m.onnx" "m.onnx.json"
        "out.wav").result
      = (false, "Piper synthese mislukt: "
          ++ ("Piper model JSON bestand niet gevonden: " ++ "m.onnx.json")))
    ∧ (synthesize_piper envPiperGone piperSt0 "Hello" "m.onnx" "m.onnx.json"
        "out.wav").loaderCalls = [] :=
  c4_missing_artifact_fails_without_load envPiperGone piperSt0 "Hello"
    "m.onnx" "m.onnx.json" "out.wav" (by decide) (by decide) rfl
    (Or.inl rfl)

/-! ## C6 -/

/-- C6: for every backend, a load during which the loader raises leaves no
cache entry behind for the requested key: the xtts and piper caches have the
key deleted, and the bark globals are reset to `None`, before the exception
propagates. -/
theorem c6_failed_load_rolls_back_cache :
    (∀ (env : XttsEnv) (st : XttsState) (key : String) (force : Bool)
      (info : ModelInfo) (e : String),
      dictGet env.available_models key = some info →
      env.loader info.model_path = Except.error e →
      ¬((dictGet st.loaded_models key).isSome ∧
        st.loaded_device = some env.device ∧ force = false) →
      (load_xtts_model env st key force).result = Except.error e
      ∧ dictGet (load_xtts_model env st key force).state.loaded_models key
        = none)
    ∧ (∀ (env : PiperEnv) (st : PiperState) (onnx json : String) (force : Bool)
      (e : String), onnx ≠ "" → json ≠ "" →
      ¬((dictGet st.loaded_voices onnx).isSome ∧ force = false) →
      env.path_exists onnx = true → env.path_exists json = true →
      env.loader onnx json = Except.error e →
      (load_piper_model env st onnx json force).result = Except.error e
      ∧ dictGet (load_piper_model env st onnx json force).state.loaded_voices
          onnx = none)
    ∧ (∀ (env : BarkEnv) (st : BarkState) (name : String) (force : Bool)
      (e : String),
      ¬(st.loaded_model.isSome ∧ st.loaded_processor.isSome ∧
        st.loaded_device = some env.device ∧ force = false) →
      env.loader name = Except.error e →
      (load_bark_model env st name force).result = Except.error e
      ∧ (load_bark_model env st name force).state = ⟨none, none, none⟩) := by
  refine ⟨?_, ?_, ?_⟩
  · intro env st key force info e hcat hload hnot
    simp only [load_xtts_model, load_xtts_model_fuel, dif_neg hnot, hcat,
      hload]
    exact ⟨trivial, dictGet_dictErase _ _⟩
  · intro env st onnx json force e h1 h2 hnot hon hj hload
    have hcond : ¬(onnx = "" ∨ json = "") := by
      rintro (h | h)
      · exact h1 h
      · exact h2 h
    have hon' : ¬(env.path_exists onnx = false) := by simp [hon]
    have hj' : ¬(env.path_exists json = false) := by simp [hj]
    simp only [load_piper_model, if_neg hcond, dif_neg hnot, if_neg hon',
      if_neg hj', hload]
    exact ⟨trivial, dictGet_dictErase _ _⟩
  · intro env st name force e hnot hload
    simp only [load_bark_model, dif_neg hnot, hload]
    exact ⟨trivial, trivial⟩

/-- Witness for C6: concrete failed loads on each backend, starting from an
empty cache (so the cache-hit condition fails). -/
theorem c6_failed_load_rolls_back_cache_witness :
    ((load_xtts_model envXttsFail xttsSt0 "xtts_v2" false).result
        = Except.error "load boom"
      ∧ dictGet (load_xtts_model envXttsFail xttsSt0 "xtts_v2"
          false).state.loaded_models "xtts_v2" = none)
    ∧ ((load_piper_model envPiperFail piperSt0 "m.onnx" "m.onnx.json"
          false).result = Except.error "load boom"
      ∧ dictGet (load_piper_model envPiperFail piperSt0 "m.onnx" "m.onnx.json"
          false).state.loaded_voices "m.onnx" = none)
    ∧ ((load_bark_model envBarkFail barkSt0 "suno/bark-small" false).result
        = Except.error "model load failed"
      ∧ (load_bark_model envBarkFail barkSt0 "suno/bark-small" false).state
        = ⟨none, none, none⟩) :=
  ⟨c6_failed_load_rolls_back_cache.1 envXttsFail xttsSt0 "xtts_v2" false
      ⟨true, "XTTSv2 (Multilingual)",
        "tts_models/multilingual/multi-dataset/xtts_v2",
        ["en", "es", "fr", "de", "it", "pt", "pl", "tr", "ru", "nl", "cs",
         "ar", "zh-cn", "ja", "hu", "ko", "hi"], "xtts"⟩ "load boom"
      (by decide) rfl (by decide),
    c6_failed_load_rolls_back_cache.2.1 envPiperFail piperSt0 "m.onnx"
      "m.onnx.json" false "load boom" (by decide) (by decide) (by decide)
      rfl rfl rfl,
    c6_failed_load_rolls_back_cache.2.2 envBarkFail barkSt0 "suno/bark-small"
      false "model load failed" (by decide) rfl⟩

/-! ## C5 -/

theorem load_xtts_fuel_keys_nodup (env : XttsEnv) :
    ∀ (fuel : Nat) (st : XttsState) (key : String) (force : Bool),
      (dictKeys st.loaded_models).Nodup →
      (dictKeys (load_xtts_model_fuel env fuel st key
          force).state.loaded_models).Nodup := by
  intro fuel
  induction fuel with
  | zero => intro st key force h; exact h
  | succ n ih =>
    intro st key force h
    simp only [load_xtts_model_fuel]
    split
    · exact h
    · split
      · split
        · exact ih st DEFAULT_MODEL force h
        · exact h
      · split
        · exact nodup_dictKeys_dictInsert _ _ _ h
        · exact nodup_dictKeys_dictErase _ _ h

/-- C5: per-backend cache discipline.  (i) An xtts load for a key cached on
the current device with `force_reload=False` returns the cached handle with
the cache unchanged and the loader not invoked; (ii) if the cached device
differs, the loader is re-invoked; (iii) a piper load for a cached ONNX path
with `force_reload=False` returns the cached voice, cache unchanged, loader
not invoked; (iv) a bark load with populated globals on the current device
returns the cached pair without invoking the loader; (v) if the bark device
differs the loader is re-invoked; (vi)/(vii) the xtts and piper caches keep
at most one entry per key (key lists stay duplicate-free across any load). -/
theorem c5_cache_discipline :
    (∀ (env : XttsEnv) (st : XttsState) (key : String) (m : Nat),
      dictGet st.loaded_models key = some m →
      st.loaded_device = some env.device →
      load_xtts_model env st key false = ⟨Except.ok m, st, []⟩)
    ∧ (∀ (env : XttsEnv) (st : XttsState) (key d : String) (m : Nat)
      (info : ModelInfo),
      dictGet st.loaded_models key = some m → st.loaded_device = some d →
      d ≠ env.device → dictGet env.available_models key = some info →
      (load_xtts_model env st key false).loaderCalls = [info.model_path])
    ∧ (∀ (env : PiperEnv) (st : PiperState) (onnx json : String)
      (v : PiperVoice), onnx ≠ "" → json ≠ "" →
      dictGet st.loaded_voices onnx = some v →
      load_piper_model env st onnx json false = ⟨Except.ok v, st, []⟩)
    ∧ (∀ (env : BarkEnv) (st : BarkState) (name : String) (p m : Nat),
      st.loaded_processor = some p → st.loaded_model = some m →
      st.loaded_device = some env.device →
      load_bark_model env st name false = ⟨Except.ok (p, m), st, []⟩)
    ∧ (∀ (env : BarkEnv) (st : BarkState) (name d : String),
      st.loaded_device = some d → d ≠ env.device →
      (load_bark_model env st name false).loaderCalls = [name])
    ∧ (∀ (env : XttsEnv) (st : XttsState) (key : String) (force : Bool),
      (dictKeys st.loaded_models).Nodup →
      (dictKeys (load_xtts_model env st key
          force).state.loaded_models).Nodup)
    ∧ (∀ (env : PiperEnv) (st : PiperState) (onnx json : String)
      (force : Bool), (dictKeys st.loaded_voices).Nodup →
      (dictKeys (load_piper_model env st onnx json
          force).state.loaded_voices).Nodup) := by
  refine ⟨?_, ?_, ?_, ?_, ?_, ?_, ?_⟩
  · intro env st key m hget hdev
    have hc : (dictGet st.loaded_models key).isSome ∧
        st.loaded_device = some env.device ∧ (false : Bool) = false := by
      simp [hget, hdev]
    simp only [load_xtts_model, load_xtts_model_fuel, dif_pos hc]
    simp [hget, hdev]
  · intro env st key d m info hget hdev hne hcat
    have hc : ¬((dictGet st.loaded_models key).isSome ∧
        st.loaded_device = some env.device ∧ (false : Bool) = false) := by
      rintro ⟨-, hd, -⟩
      rw [hdev] at hd
      exact hne (by injection hd)
    simp only [load_xtts_model, load_xtts_model_fuel, dif_neg hc, hcat]
    cases henv : env.loader info.model_path <;>
      simp [henv, hdev, Option.some.injEq, hne]
  · intro env st onnx json v h1 h2 hget
    have hcond : ¬(onnx = "" ∨ json = "") := by
      rintro (h | h)
      · exact h1 h
      · exact h2 h
    have hc : (dictGet st.loaded_voices onnx).isSome ∧
        (false : Bool) = false := by simp [hget]
    simp only [load_piper_model, if_neg hcond, dif_pos hc]
    simp [hget]
  · intro env st name p m hp hm hdev
    have hc : st.loaded_model.isSome ∧ st.loaded_processor.isSome ∧
        st.loaded_device = some env.device ∧ (false : Bool) = false := by
      simp [hp, hm, hdev]
    simp only [load_bark_model, dif_pos hc]
    simp [hp, hm, hdev]
  · intro env st name d hdev hne
    have hc : ¬(st.loaded_model.isSome ∧ st.loaded_processor.isSome ∧
        st.loaded_device = some env.device ∧ (false : Bool) = false) := by
      rintro ⟨-, -, hd, -⟩
      rw [hdev] at hd
      exact hne (by injection hd)
    simp only [load_bark_model, dif_neg hc]
    cases henv : env.loader name <;> simp [henv, hdev, Option.some.injEq, hne]
  · intro env st key force h
    exact load_xtts_fuel_keys_nodup env 2 st key force h
  · intro env st onnx json force h
    simp only [load_piper_model]
    split
    · exact h
    · split
      · exact h
      · split
        · exact h
        · split
          · exact h
          · split
            · exact nodup_dictKeys_dictErase _ _ h
            · split
              · exact nodup_dictKeys_dictErase _ _ h
              · exact nodup_dictKeys_dictInsert _ _ _ h

/-- Witness for C5 at concrete caches, devices and catalogs. -/
theorem c5_cache_discipline_witness :
    load_xtts_model envXttsOk xttsStCached "xtts_v2" false
      = ⟨Except.ok 5, xttsStCached, []⟩
    ∧ (load_xtts_model envXttsCuda xttsStCached "xtts_v2" false).loaderCalls
      = ["tts_models/multilingual/multi-dataset/xtts_v2"]
    ∧ load_piper_model envPiperLive piperStHas "m.onnx" "m.onnx.json" false
      = ⟨Except.ok ⟨1, true, 22050⟩, piperStHas, []⟩
    ∧ load_bark_model envBarkFail barkStCached "suno/bark-small" false
      = ⟨Except.ok (3, 4), barkStCached, []⟩
    ∧ (load_bark_model envBarkCuda barkStCached "suno/bark-small"
        false).loaderCalls = ["suno/bark-small"]
    ∧ (dictKeys (load_xtts_model envXttsOk xttsSt0 "xtts_v2"
        false).state.loaded_models).Nodup
    ∧ (dictKeys (load_piper_model envPiperLive piperSt0 "m.onnx" "m.onnx.json"
        false).state.loaded_voices).Nodup :=
  ⟨c5_cache_discipline.1 envXttsOk xttsStCached "xtts_v2" 5 rfl rfl,
    c5_cache_discipline.2.1 envXttsCuda xttsStCached "xtts_v2" "cpu" 5
      ⟨true, "XTTSv2 (Multilingual)",
        "tts_models/multilingual/multi-dataset/xtts_v2",
        ["en", "es", "fr", "de", "it", "pt", "pl", "tr", "ru", "nl", "cs",
         "ar", "zh-cn", "ja", "hu", "ko", "hi"], "xtts"⟩ rfl rfl (by decide)
      (by decide),
    c5_cache_discipline.2.2.1 envPiperLive piperStHas "m.onnx" "m.onnx.json"
      ⟨1, true, 22050⟩ (by decide) (by decide) rfl,
    c5_cache_discipline.2.2.2.1 envBarkFail barkStCached "suno/bark-small" 3 4
      rfl rfl rfl,
    c5_cache_discipline.2.2.2.2.1 envBarkCuda barkStCached "suno/bark-small"
      "cpu" rfl (by decide),
    c5_cache_discipline.2.2.2.2.2.1 envXttsOk xttsSt0 "xtts_v2" false
      (by decide),
    c5_cache_discipline.2.2.2.2.2.2 envPiperLive piperSt0 "m.onnx"
      "m.onnx.json" false (by decide)⟩

/-! ## C2 -/

/-- Counterexample to C2 as stated: a concrete run in which a valid
reference-audio path was supplied and strategy 1 raised; strategy 2's
invocation still carries `speaker_wav="ref.wav"` — the reference audio is NOT
omitted (it is only omitted by strategy 4). -/
theorem c2_counterexample_strategy2_keeps_speaker :
    (synthesize_xtts envC2 xttsSt0 "Test" (some "ref.wav") "en" "out.wav"
        "xtts_v2").calls
      = [XttsCall.tts_to_file "Test" (some "ref.wav") none (some "en")
          "out.wav",
         XttsCall.tts "Test" (some "ref.wav") (some "en")] := by
  decide

/-- C2 (amended): in the fallback cascade, whenever a valid reference-audio
path was supplied and strategy 1 raised, strategy 2 invokes the backend's
direct `tts()` method WITH the reference-audio parameter still included;
the only invocation shape that omits a supplied reference audio is the
minimal strategy-4 call (text only). -/
theorem c2_strategy2_includes_reference_audio (env : XttsEnv)
    (text language output_path spk : String)
    (h : env.callFails (XttsCall.tts_to_file text (some spk) none
      (some language) output_path) = true) :
    ((xtts_branch env text language output_path (some spk)).1).get? 1
      = some (XttsCall.tts text (some spk) (some language))
    ∧ ∀ c ∈ (xtts_branch env text language output_path (some spk)).1,
        c.speakerWavArg = none → c = XttsCall.tts text none none := by
  have h1 : ¬(env.callFails (XttsCall.tts_to_file text (some spk) none
      (some language) output_path) = false) := by simp [h]
  simp only [xtts_branch, if_neg h1]
  split_ifs <;>
    refine ⟨rfl, ?_⟩ <;>
    intro c hc hsw <;>
    simp only [List.mem_cons, List.mem_singleton, List.not_mem_nil,
      or_false] at hc <;>
    rcases hc with rfl | rfl | rfl | rfl <;>
    first
      | rfl
      | simp [XttsCall.speakerWavArg] at hsw

/-- Witness for the amended C2 at the concrete `envC2` run. -/
theorem c2_strategy2_includes_reference_audio_witness :
    ((xtts_branch envC2 "Test" "en" "out.wav" (some "ref.wav")).1).get? 1
      = some (XttsCall.tts "Test" (some "ref.wav") (some "en"))
    ∧ ∀ c ∈ (xtts_branch envC2 "Test" "en" "out.wav" (some "ref.wav")).1,
        c.speakerWavArg = none → c = XttsCall.tts "Test" none none :=
  c2_strategy2_includes_reference_audio envC2 "Test" "en" "out.wav" "ref.wav"
    (by decide)

/-! ## C3 -/

/-- Counterexample to C3 as stated: a `synthesize_xtts` call whose selector
is unknown returns a failure even though every oracle is benign (the loader
works, every backend call succeeds, the fallback default model is in the
catalog): the unknown selector alone makes the call fail, with no fallback to
the default model. -/
theorem c3_counterexample_unknown_selector_fails :
    (synthesize_xtts envXttsOk xttsSt0 "Test" none "en" "out.wav"
        "does_not_exist").result
      = (false, "TTS synthesis failed: Unknown TTS model: does_not_exist") := by
  decide

theorem load_xtts_fuel_agree (env : XttsEnv) (st : XttsState) (k : String)
    (force : Bool) (info : ModelInfo)
    (hinfo : dictGet env.available_models k = some info) (n m : Nat) :
    load_xtts_model_fuel env (n + 1) st k force
      = load_xtts_model_fuel env (m + 1) st k force := by
  simp only [load_xtts_model_fuel, hinfo]

/-- C3 (amended): a `synthesize_xtts` call whose model selector is unknown
returns `(False, "TTS synthesis failed: Unknown TTS model: …")` without
making any backend or loader invocation; the fall-back-to-default behaviour
lives in the loading operation instead: `load_xtts_model` on an unknown key
(not already cached for the current device) behaves exactly like a load of
the configured default model, provided the default is in the catalog and the
key differs from it. -/
theorem c3_unknown_selector_fails_fallback_in_load :
    (∀ (env : XttsEnv) (st : XttsState) (text : String)
      (spk : Option String) (lang out key : String),
      dictGet env.available_models key = none →
      (synthesize_xtts env st text spk lang out key).result
        = (false, "TTS synthesis failed: Unknown TTS model: " ++ key)
      ∧ (synthesize_xtts env st text spk lang out key).calls = []
      ∧ (synthesize_xtts env st text spk lang out key).loaderCalls = [])
    ∧ (∀ (env : XttsEnv) (st : XttsState) (key : String) (force : Bool),
      ¬((dictGet st.loaded_models key).isSome ∧
        st.loaded_device = some env.device ∧ force = false) →
      dictGet env.available_models key = none →
      (dictGet env.available_models DEFAULT_MODEL).isSome →
      key ≠ DEFAULT_MODEL →
      load_xtts_model env st key force
        = load_xtts_model env st DEFAULT_MODEL force) := by
  constructor
  · intro env st text spk lang out key hnone
    simp only [synthesize_xtts, hnone]
    exact ⟨trivial, trivial, trivial⟩
  · intro env st key force hnotc hnone hdef hne
    rcases Option.isSome_iff_exists.mp hdef with ⟨dinfo, hdinfo⟩
    have step : load_xtts_model_fuel env 2 st key force
        = load_xtts_model_fuel env 1 st DEFAULT_MODEL force := by
      have h2 : load_xtts_model_fuel env 2 st key force
          = load_xtts_model_fuel env (1 + 1) st key force := rfl
      rw [h2]
      simp only [load_xtts_model_fuel, dif_neg hnotc, hnone, hdinfo, hne,
        Option.isSome_some, not_false_iff, and_true, true_and, if_true]
      rw [if_pos hne]
    rw [load_xtts_model, load_xtts_model, step]
    exact load_xtts_fuel_agree env st DEFAULT_MODEL force dinfo hdinfo 0 1

/-- Witness for the amended C3: the unknown selector `does_not_exist` under a
benign oracle, and the corresponding load that falls back to the default
model. -/
theorem c3_unknown_selector_fails_fallback_in_load_witness :
    ((synthesize_xtts envXttsOk xttsSt0 "Test" none "en" "out.wav"
        "does_not_exist").result
        = (false, "TTS synthesis failed: Unknown TTS model: "
            ++ "does_not_exist")
      ∧ (synthesize_xtts envXttsOk xttsSt0 "Test" none "en" "out.wav"
          "does_not_exist").calls = []
      ∧ (synthesize_xtts envXttsOk xttsSt0 "Test" none "en" "out.wav"
          "does_not_exist").loaderCalls = [])
    ∧ load_xtts_model envXttsOk xttsSt0 "does_not_exist" false
      = load_xtts_model envXttsOk xttsSt0 DEFAULT_MODEL false :=
  ⟨c3_unknown_selector_fails_fallback_in_load.1 envXttsOk xttsSt0 "Test" none
      "en" "out.wav" "does_not_exist" (by decide),
    c3_unknown_selector_fails_fallback_in_load.2 envXttsOk xttsSt0
      "does_not_exist" false (by decide) (by decide) (by decide) (by decide)⟩

/-! ## C7 -/

theorem xtts_branch_head (env : XttsEnv) (t l o : String)
    (vs : Option String) :
    ∃ sw, ((xtts_branch env t l o vs).1).get? 0
      = some (XttsCall.tts_to_file t sw none (some l) o) := by
  cases vs <;> simp only [xtts_branch] <;> split_ifs <;> exact ⟨_, rfl⟩

theorem non_xtts_branch_head (env : XttsEnv) (t o mt : String) :
    ∃ sp, ((non_xtts_branch env t o mt).1).get? 0
      = some (XttsCall.tts_to_file t none sp none o) := by
  simp only [non_xtts_branch]
  split_ifs <;> exact ⟨_, rfl⟩

/-- Counterexample to C7 as stated: a non-cloning (standard) model with an
unsupported requested language.  The adapter's effective-language variable is
indeed substituted to `"en"`, but the backend invocation carries NO language
parameter at all — the substituted language is never "passed to the
backend". -/
theorem c7_counterexample_standard_model_gets_no_language :
    (synthesize_xtts envXttsOk xttsSt0 "Test" none "fr" "out.wav"
        "tacotron2_ddc").calls
      = [XttsCall.tts_to_file "Test" none none none "out.wav"]
    ∧ (synthesize_xtts envXttsOk xttsSt0 "Test" none "fr" "out.wav"
        "tacotron2_ddc").effLanguage = some "en" := by
  exact ⟨by decide, by decide⟩

/-- C7 (amended): when the requested language is not in the selected model's
declared supported set, (i) for a cloning-capable (`"xtts"`-type) model the
effective language stays the originally requested one and the first backend
invocation passes exactly that language; (ii) for a non-cloning model outside
the XTTS dispatch branch (standard/multispeaker/fast types) whose supported
set contains the fallback `"en"`, the effective-language variable is silently
substituted to `"en"`, but the backend invocation passes no language
parameter at all. -/
theorem c7_language_substitution :
    (∀ (env : XttsEnv) (st : XttsState) (text : String) (spk : Option String)
      (lang out key : String) (info : ModelInfo) (m : Nat) (st1 : XttsState)
      (lc : List String),
      dictGet env.available_models key = some info → info.mtype = "xtts" →
      lang ∉ info.languages →
      load_xtts_model env st key false = ⟨Except.ok m, st1, lc⟩ →
      (synthesize_xtts env st text spk lang out key).effLanguage = some lang
      ∧ ∃ c, (synthesize_xtts env st text spk lang out key).calls.get? 0
          = some c ∧ c.langArg = some lang)
    ∧ (∀ (env : XttsEnv) (st : XttsState) (text : String)
      (spk : Option String) (lang out key : String) (info : ModelInfo)
      (m : Nat) (st1 : XttsState) (lc : List String),
      dictGet env.available_models key = some info →
      info.mtype ≠ "xtts" → info.mtype ≠ "multilingual" →
      containsSub "xtts".toList (lowChars key.toList) = false →
      lang ∉ info.languages → "en" ∈ info.languages →
      load_xtts_model env st key false = ⟨Except.ok m, st1, lc⟩ →
      (synthesize_xtts env st text spk lang out key).effLanguage = some "en"
      ∧ ∃ c, (synthesize_xtts env st text spk lang out key).calls.get? 0
          = some c ∧ c.langArg = none) := by
  constructor
  · intro env st text spk lang out key info m st1 lc hcat hmt hlang hload
    have hl1 : ¬(lang ∉ info.languages ∧ info.mtype ≠ "xtts" ∧
        "en" ∈ info.languages) := by
      rintro ⟨-, hne, -⟩
      exact hne hmt
    have hbr : info.mtype = "xtts" ∨ info.mtype = "multilingual" ∨
        containsSub "xtts".toList (lowChars key.toList) = true := Or.inl hmt
    simp only [synthesize_xtts, hcat, if_neg hl1, hload, if_pos hbr]
    constructor
    · split_ifs <;> rfl
    · rcases xtts_branch_head env text lang out
        (match spk with
          | some s =>
            if pyStrip s ≠ "" ∧ env.path_exists (pyStrip s) = true ∧
                env.path_isfile (pyStrip s) = true then some (pyStrip s)
            else none
          | none => none) with ⟨sw, hsw⟩
      refine ⟨XttsCall.tts_to_file text sw none (some lang) out, ?_, rfl⟩
      split_ifs <;> exact hsw
  · intro env st text spk lang out key info m st1 lc hcat hmt1 hmt2 hsub
      hlang hen hload
    have hl1 : lang ∉ info.languages ∧ info.mtype ≠ "xtts" ∧
        "en" ∈ info.languages := ⟨hlang, hmt1, hen⟩
    have hbr : ¬(info.mtype = "xtts" ∨ info.mtype = "multilingual" ∨
        containsSub "xtts".toList (lowChars key.toList) = true) := by
      rintro (h | h | h)
      · exact hmt1 h
      · exact hmt2 h
      · rw [hsub] at h
        exact Bool.false_ne_true h
    simp only [synthesize_xtts, hcat, if_pos hl1, hload, if_neg hbr]
    constructor
    · split_ifs <;> rfl
    · rcases non_xtts_branch_head env text out info.mtype with ⟨sp, hsp⟩
      refine ⟨XttsCall.tts_to_file text none sp none out, ?_, rfl⟩
      split_ifs <;> exact hsp

/-- Witness for the amended C7: a cloning model with unsupported `"xx"`, and
a standard model with unsupported `"fr"`, both under a benign oracle. -/
theorem c7_language_substitution_witness :
    ((synthesize_xtts envXttsOk xttsSt0 "Test" none "xx" "out.wav"
        "xtts_v2").effLanguage = some "xx"
      ∧ ∃ c, (synthesize_xtts envXttsOk xttsSt0 "Test" none "xx" "out.wav"
          "xtts_v2").calls.get? 0 = some c ∧ c.langArg = some "xx")
    ∧ ((synthesize_xtts envXttsOk xttsSt0 "Test" none "fr" "out.wav"
        "tacotron2_ddc").effLanguage = some "en"
      ∧ ∃ c, (synthesize_xtts envXttsOk xttsSt0 "Test" none "fr" "out.wav"
          "tacotron2_ddc").calls.get? 0 = some c ∧ c.langArg = none) :=
  ⟨c7_language_substitution.1 envXttsOk xttsSt0 "Test" none "xx" "out.wav"
      "xtts_v2"
      ⟨true, "XTTSv2 (Multilingual)",
        "tts_models/multilingual/multi-dataset/xtts_v2",
        ["en", "es", "fr", "de", "it", "pt", "pl", "tr", "ru", "nl", "cs",
         "ar", "zh-cn", "ja", "hu", "ko", "hi"], "xtts"⟩ 1 ⟨[("xtts_v2", 1)],
        some "cpu"⟩ ["tts_models/multilingual/multi-dataset/xtts_v2"]
      (by decide) rfl (by decide) rfl,
    c7_language_substitution.2 envXttsOk xttsSt0 "Test" none "fr" "out.wav"
      "tacotron2_ddc"
      ⟨true, "Tacotron2-DDC (English)", "tts_models/en/ljspeech/tacotron2-DDC",
        ["en"], "standard"⟩ 1 ⟨[("tacotron2_ddc", 1)], some "cpu"⟩
      ["tts_models/en/ljspeech/tacotron2-DDC"] (by decide) (by decide)
      (by decide) (by decide) (by decide) (by decide) rfl⟩
